import Mathlib

/-!
Verification of the declarative route-registration core of the repository
(`internal/router/routes.go`): Route/GroupRouter descriptors, validation,
and the registrar (`Register`, `RegisterGroup` and their helpers).

Handler functions (`gin.HandlerFunc`) are opaque to this module, so they are
modelled by an arbitrary type parameter `H`.  The Gin engine is external to
the repository; it is modelled as the record of bindings the registrar
performs on it: each bind call (`engine.GET(path, handlers...)`,
`group.GET(path, handlers...)`, ...) appends a `Binding` holding the HTTP
verb, the path, and the handler chain.  `engine.Group(path, mws...)` yields a
sub-router that prefixes its base path and prepends its middlewares to every
chain bound through it, per the engine interface the spec describes.

Go reflection is modelled by data: an object's exported method set is a list
of `RMethod` values, each carrying the method's name (as
`runtime.FuncForPC(...).Name()` reports it), its non-variadic parameter count
(`NumIn`, receiver excluded, as seen through a bound method value), its list
of result types, and the descriptor value the method returns when invoked
(`none` models a nil pointer).  Implementing the `Router` (resp.
`GroupedRouter`) capability interface is modelled by the `direct`
(resp. `directGroups`) field holding the slice the interface method returns.
`reflect.Value.Call(nil)` on a bound method that requires arguments panics;
registration outcomes therefore distinguish a returned error from a panic.
-/

namespace RouterSpec

/-- `type Method string`: an HTTP method, an arbitrary string. -/
abbrev Method := String

/-- The `GET` method constant. -/
def GET : Method := "GET"

/-- The `POST` method constant. -/
def POST : Method := "POST"

/-- The `PUT` method constant. -/
def PUT : Method := "PUT"

/-- The `DELETE` method constant. -/
def DELETE : Method := "DELETE"

/-- The `HEAD` method constant. -/
def HEAD : Method := "HEAD"

/-- The `OPTIONS` method constant. -/
def OPTIONS : Method := "OPTIONS"

/-- The `PATCH` method constant. -/
def PATCH : Method := "PATCH"

/-- The `ANY` method constant. -/
def ANY : Method := "ANY"

/-- The eight method constants declared by the package. -/
def knownMethods : List Method := [GET, POST, PUT, DELETE, HEAD, OPTIONS, PATCH, ANY]

/-- `ValidationError`: an error produced by route validation; `Error()`
returns `Message`. -/
structure ValidationError where
  Message : String
deriving DecidableEq, Repr

/-- `Route`: a single endpoint.  `H` stands for `gin.HandlerFunc`. -/
structure Route (H : Type) where
  Path : String
  Method : Method
  Handlers : List H
  Middlewares : List H
  Description : String
deriving DecidableEq, Repr

/-- `GroupRouter`: a group of routes sharing a path prefix and middlewares. -/
structure GroupRouter (H : Type) where
  Path : String
  Routes : List (Route H)
  Middlewares : List H
deriving DecidableEq, Repr

/-- `NewRoute`: builds a Route with the given path and method, empty handler
list, and zero values for the remaining fields. -/
def NewRoute (H : Type) (path : String) (method : Method) : Route H :=
  { Path := path, Method := method, Handlers := [], Middlewares := [], Description := "" }

/-- `NewGroupRouter`: builds a GroupRouter with the given path and empty
routes. -/
def NewGroupRouter (H : Type) (path : String) : GroupRouter H :=
  { Path := path, Routes := [], Middlewares := [] }

/-- `Route.Handle`: appends handler functions to the route and returns it. -/
def Route.Handle {H : Type} (r : Route H) (handlers : List H) : Route H :=
  { r with Handlers := r.Handlers ++ handlers }

/-- `Route.Use`: appends middlewares to the route and returns it. -/
def Route.Use {H : Type} (r : Route H) (middlewares : List H) : Route H :=
  { r with Middlewares := r.Middlewares ++ middlewares }

/-- `Route.WithDescription`: sets the route's description and returns it. -/
def Route.WithDescription {H : Type} (r : Route H) (description : String) : Route H :=
  { r with Description := description }

/-- `GroupRouter.Use`: appends middlewares to the group and returns it. -/
def GroupRouter.Use {H : Type} (g : GroupRouter H) (middlewares : List H) : GroupRouter H :=
  { g with Middlewares := g.Middlewares ++ middlewares }

/-- `GroupRouter.AddRoute`: appends a route to the group and returns it. -/
def GroupRouter.AddRoute {H : Type} (g : GroupRouter H) (route : Route H) : GroupRouter H :=
  { g with Routes := g.Routes ++ [route] }

/-- `Route.Validate`: `some e` models returning the error `e`, `none` models
returning nil. -/
def Route.Validate {H : Type} (r : Route H) : Option ValidationError :=
  if r.Path = "" then some ⟨"Route path cannot be empty"⟩
  else if r.Handlers.isEmpty then some ⟨"Route must have at least one handler"⟩
  else none

/-- One bind performed on the engine: the HTTP verb the route was registered
under, the path argument of the bind call (for a sub-router bind, the group's
base path followed by that argument), and the handler chain. -/
structure Binding (H : Type) where
  verb : String
  path : String
  chain : List H
deriving DecidableEq, Repr

/-- The Gin engine, modelled as the list of bindings performed on it. -/
structure Engine (H : Type) where
  bindings : List (Binding H)
deriving DecidableEq, Repr

/-- A Gin sub-router created by `engine.Group(path, middlewares...)`: it
carries its base path and the middlewares it prepends to every chain bound
through it. -/
structure RouterGroup (H : Type) where
  basePath : String
  groupHandlers : List H
deriving DecidableEq, Repr

/-- `engine.Group(path, middlewares...)`. -/
def Engine.group {H : Type} (_e : Engine H) (path : String) (middlewares : List H) :
    RouterGroup H :=
  { basePath := path, groupHandlers := middlewares }

/-- `strings.HasPrefix(path, "/")`: whether the path's first character is
the slash. -/
def startsWithSlash (path : String) : Bool :=
  match path.data with
  | [] => false
  | c :: _ => c = '/'

/-- The path prefixing done in `registerRoute` / `registerRouteToGroup`:
`if !strings.HasPrefix(path, "/") { path = "/" + path }`. -/
def normalizePath (path : String) : String :=
  if startsWithSlash path then path else "/" ++ path

/-- The verb selected by the method switch in `registerRoute` /
`registerRouteToGroup`: each known constant selects its own engine bind
call, and the `default` branch calls `engine.GET`. -/
def methodVerb (m : Method) : String :=
  if m = GET then "GET"
  else if m = POST then "POST"
  else if m = PUT then "PUT"
  else if m = DELETE then "DELETE"
  else if m = HEAD then "HEAD"
  else if m = OPTIONS then "OPTIONS"
  else if m = PATCH then "PATCH"
  else if m = ANY then "ANY"
  else "GET"

/-- `registerRoute`: skips when the chain is empty, otherwise normalizes the
path and binds the chain on the engine under the verb the method switch
selects. -/
def registerRoute {H : Type} (e : Engine H) (method : Method) (path : String)
    (handlers : List H) : Engine H :=
  if handlers.isEmpty then e
  else { bindings := e.bindings ++ [⟨methodVerb method, normalizePath path, handlers⟩] }

/-- `registerRouteToGroup`: same as `registerRoute` but binds through a
sub-router, which prefixes its base path and prepends its middlewares. -/
def registerRouteToGroup {H : Type} (e : Engine H) (group : RouterGroup H)
    (method : Method) (path : String) (handlers : List H) : Engine H :=
  if handlers.isEmpty then e
  else
    { bindings := e.bindings ++
        [⟨methodVerb method, group.basePath ++ normalizePath path,
          group.groupHandlers ++ handlers⟩] }

/-- A return type as `reflect.Type` distinguishes it: the pointer type
`*Route`, the pointer type `*GroupRouter`, or anything else. -/
inductive RetTy where
  | routePtr
  | groupPtr
  | other
deriving DecidableEq, Repr

/-- One exported method of a handler object, as reflection sees it:
its reported function name, its required (non-variadic) parameter count with
the receiver already bound, its result types in order, and the descriptor
value it returns when invoked (`none` models a nil pointer).  The result
fields are meaningful only when the corresponding single-result signature
matches; the registrar never consults them otherwise. -/
structure RMethod (H : Type) where
  name : String
  numIn : Nat
  outs : List RetTy
  routeResult : Option (Route H)
  groupResult : Option (GroupRouter H)
deriving DecidableEq, Repr

/-- A handler object: `direct` is `some rs` when the object implements the
`Router` capability interface (its `Routes()` returning `rs`), `directGroups`
likewise for the `GroupedRouter` interface, and `methods` is its exported
method set. -/
structure HandlerObj (H : Type) where
  direct : Option (List (Route H))
  directGroups : Option (List (GroupRouter H))
  methods : List (RMethod H)
deriving DecidableEq, Repr

/-- How a registration call ends: normal return without error, return of an
error carrying the given message, or a runtime panic. -/
inductive RegStatus where
  | ok
  | err (msg : String)
  | panicked (msg : String)
deriving DecidableEq, Repr

/-- The chain built for a route: `append(middlewares, handlers...)`. -/
def routeChain {H : Type} (r : Route H) : List H :=
  r.Middlewares ++ r.Handlers

/-- `registerDirectRoutes`: validates each route in order and binds its
chain; the first validation failure returns that error as-is, leaving the
engine as it was at that point. -/
def registerDirectRoutes {H : Type} : Engine H → List (Route H) → Engine H × RegStatus
  | e, [] => (e, .ok)
  | e, r :: rs =>
    match r.Validate with
    | some ve => (e, .err ve.Message)
    | none => registerDirectRoutes (registerRoute e r.Method r.Path (routeChain r)) rs

/-- The per-method loop of `Register`.  A method whose result types are not
exactly one `*Route` is skipped (the `NumOut() != 1 || Out(0) != *Route`
check).  Otherwise the method is invoked via `Call(nil)`, which panics when
the bound method still requires arguments.  A nil result is skipped; an
invalid route aborts with an error naming the method; a valid route is
bound. -/
def registerMethodRoutes {H : Type} : Engine H → List (RMethod H) → Engine H × RegStatus
  | e, [] => (e, .ok)
  | e, m :: ms =>
    if m.outs ≠ [RetTy.routePtr] then registerMethodRoutes e ms
    else if m.numIn ≠ 0 then (e, .panicked "reflect: Call with too few input arguments")
    else
      match m.routeResult with
      | none => registerMethodRoutes e ms
      | some r =>
        match r.Validate with
        | some ve => (e, .err ("invalid route from " ++ m.name ++ ": " ++ ve.Message))
        | none => registerMethodRoutes (registerRoute e r.Method r.Path (routeChain r)) ms

/-- `Register`: if the object implements the `Router` interface, its routes
are registered directly and introspection is skipped; otherwise the exported
method set is scanned. -/
def Register {H : Type} (e : Engine H) (obj : HandlerObj H) : Engine H × RegStatus :=
  match obj.direct with
  | some rs => registerDirectRoutes e rs
  | none => registerMethodRoutes e obj.methods

/-- The validation sweep over a group's routes in `RegisterGroup` /
`registerDirectGroups`: the error of the first invalid route, if any. -/
def firstInvalid {H : Type} : List (Route H) → Option ValidationError
  | [] => none
  | r :: rs =>
    match r.Validate with
    | some ve => some ve
    | none => firstInvalid rs

/-- Binds all routes of a (pre-validated) group: creates the sub-router with
the group's path and middlewares, then binds each route's
middleware+handler chain through it. -/
def bindGroup {H : Type} (e : Engine H) (g : GroupRouter H) : Engine H :=
  let grp := e.group g.Path g.Middlewares
  g.Routes.foldl (fun acc r => registerRouteToGroup acc grp r.Method r.Path (routeChain r)) e

/-- `registerDirectGroups`: for each group, validates every contained route
up front; on the first invalid route it returns an error naming the group's
path, with nothing of that group bound; otherwise it binds the whole
group and moves on. -/
def registerDirectGroups {H : Type} : Engine H → List (GroupRouter H) → Engine H × RegStatus
  | e, [] => (e, .ok)
  | e, g :: gs =>
    match firstInvalid g.Routes with
    | some ve => (e, .err ("invalid route in group " ++ g.Path ++ ": " ++ ve.Message))
    | none => registerDirectGroups (bindGroup e g) gs

/-- The per-method loop of `RegisterGroup`: like `registerMethodRoutes` but
for `*GroupRouter`-returning methods; an invalid route aborts with an error
naming the group's path and the method, before anything of that group is
bound. -/
def registerMethodGroups {H : Type} : Engine H → List (RMethod H) → Engine H × RegStatus
  | e, [] => (e, .ok)
  | e, m :: ms =>
    if m.outs ≠ [RetTy.groupPtr] then registerMethodGroups e ms
    else if m.numIn ≠ 0 then (e, .panicked "reflect: Call with too few input arguments")
    else
      match m.groupResult with
      | none => registerMethodGroups e ms
      | some g =>
        match firstInvalid g.Routes with
        | some ve =>
          (e, .err ("invalid route in group " ++ g.Path ++ " from " ++ m.name ++ ": " ++
            ve.Message))
        | none => registerMethodGroups (bindGroup e g) ms

/-- `RegisterGroup`: if the object implements the `GroupedRouter` interface,
its groups are registered directly; otherwise the exported method set is
scanned for `*GroupRouter`-returning methods. -/
def RegisterGroup {H : Type} (e : Engine H) (obj : HandlerObj H) : Engine H × RegStatus :=
  match obj.directGroups with
  | some gs => registerDirectGroups e gs
  | none => registerMethodGroups e obj.methods

/-- A group whose routes all validate. -/
def groupValid {H : Type} (g : GroupRouter H) : Bool :=
  g.Routes.all fun r => (r.Validate).isNone

/-- The binding `registerDirectRoutes` / `registerMethodRoutes` performs for
one valid route. -/
def bindingOfRoute {H : Type} (r : Route H) : Binding H :=
  ⟨methodVerb r.Method, normalizePath r.Path, routeChain r⟩

/-- The binding a group bind performs for one of the group's routes. -/
def bindingOfGroupRoute {H : Type} (g : GroupRouter H) (r : Route H) : Binding H :=
  ⟨methodVerb r.Method, g.Path ++ normalizePath r.Path, g.Middlewares ++ routeChain r⟩

/-- A handler-object method that takes one (non-variadic) argument and
returns a single `*Route`: it passes the return-shape filter on line 142 of
routes.go, so `Register` invokes it via `reflect.Value.Call(nil)`. -/
def extraParamMethod : RMethod Nat :=
  { name := "main.(*Handler).Extra", numIn := 1, outs := [RetTy.routePtr],
    routeResult := some (Route.mk "/x" GET [0] [] ""), groupResult := none }

/-- A zero-argument `*Route`-returning method: under convention discovery it
would be registered, so it demonstrates that the method set is ignored when
the capability interface is present. -/
def spuriousMethod : RMethod Nat :=
  { name := "main.(*Handler).Spurious", numIn := 0, outs := [RetTy.routePtr],
    routeResult := some (Route.mk "/spurious" GET [99] [] ""), groupResult := none }

/-- A zero-argument method returning a nil `*Route`. -/
def nilRouteMethod : RMethod Nat :=
  { name := "main.(*Handler).NilR", numIn := 0, outs := [RetTy.routePtr],
    routeResult := none, groupResult := none }

/-- A zero-argument method returning a nil `*GroupRouter`. -/
def nilGroupMethod : RMethod Nat :=
  { name := "main.(*Handler).NilG", numIn := 0, outs := [RetTy.groupPtr],
    routeResult := none, groupResult := none }

/-- A group whose first route is valid and whose second route has an empty
path: the valid route must not be bound when the group is rejected. -/
def mixedGroup : GroupRouter Nat :=
  { Path := "/api", Routes := [Route.mk "/ok" GET [1] [] "", Route.mk "" GET [2] [] ""],
    Middlewares := [9] }

/-- A zero-argument method returning `mixedGroup`. -/
def mixedGroupMethod : RMethod Nat :=
  { name := "main.(*Handler).Mixed", numIn := 0, outs := [RetTy.groupPtr],
    routeResult := none, groupResult := some mixedGroup }

/-- The route of the spec's concatenation-order example: middlewares
`[A, B] = [1, 2]` and handlers `[C, D] = [3, 4]`. -/
def chainRoute : Route Nat := Route.mk "/r" GET [3, 4] [1, 2] ""

/-- The group of the spec's group-isolation example: prefix `/api/user`,
middleware `[M] = [10]`, routes `/login` (handler 20) and `/info`
(middleware `[N] = [11]`, handler 21). -/
def userGroup : GroupRouter Nat :=
  { Path := "/api/user",
    Routes := [Route.mk "/login" GET [20] [] "", Route.mk "/info" GET [21] [11] ""],
    Middlewares := [10] }

/-- A route with a non-empty path and no handlers; its validation fails with
the no-handler message. -/
def noHandlerRoute : Route Nat := Route.mk "/p" GET [] [] ""

/-- A zero-argument method returning the handler-less route. -/
def badRouteMethod : RMethod Nat :=
  { name := "main.(*Handler).Bad", numIn := 0, outs := [RetTy.routePtr],
    routeResult := some noHandlerRoute, groupResult := none }

theorem isEmpty_false_of_ne_nil {α : Type} {l : List α} (h : l ≠ []) : l.isEmpty = false := by
  cases l with
  | nil => exact absurd rfl h
  | cons a l => rfl

theorem validate_none_iff {H : Type} (r : Route H) :
    r.Validate = none ↔ (r.Path ≠ "" ∧ r.Handlers ≠ []) := by
  unfold Route.Validate
  rcases eq_or_ne r.Path "" with hp | hp
  · simp [hp]
  · rcases eq_or_ne r.Handlers ([] : List H) with hh | hh
    · simp [hp, hh]
    · simp [hp, hh, isEmpty_false_of_ne_nil hh]

theorem chain_isEmpty_false {H : Type} {r : Route H} (h : r.Validate = none) :
    (routeChain r).isEmpty = false := by
  have hv := (validate_none_iff r).mp h
  apply isEmpty_false_of_ne_nil
  intro hc
  simp only [routeChain] at hc
  exact hv.2 (List.append_eq_nil.mp hc).2

theorem registerDirectRoutes_allValid {H : Type} (rs : List (Route H)) :
    ∀ e : Engine H, (∀ r ∈ rs, r.Validate = none) →
      registerDirectRoutes e rs = (⟨e.bindings ++ rs.map bindingOfRoute⟩, RegStatus.ok) := by
  induction rs with
  | nil => intro e _; simp [registerDirectRoutes]
  | cons r rs ih =>
    intro e h
    have hr : r.Validate = none := h r (by simp)
    have hne : (routeChain r).isEmpty = false := chain_isEmpty_false hr
    simp only [registerDirectRoutes, hr]
    rw [ih _ (fun rr hrr => h rr (by simp [hrr]))]
    simp [registerRoute, hne, bindingOfRoute]

theorem firstInvalid_eq_none {H : Type} (rs : List (Route H)) :
    firstInvalid rs = none ↔ ∀ r ∈ rs, r.Validate = none := by
  induction rs with
  | nil => simp [firstInvalid]
  | cons r rs ih =>
    cases hv : r.Validate with
    | some ve => simp [firstInvalid, hv]
    | none => simp [firstInvalid, hv, ih]

theorem groupValid_iff {H : Type} (g : GroupRouter H) :
    groupValid g = true ↔ firstInvalid g.Routes = none := by
  rw [firstInvalid_eq_none]
  simp [groupValid, Option.isNone_iff_eq_none]

theorem bindGroup_foldl {H : Type} (grp : RouterGroup H) (rs : List (Route H)) :
    ∀ e : Engine H, (∀ r ∈ rs, (routeChain r).isEmpty = false) →
      rs.foldl (fun acc r => registerRouteToGroup acc grp r.Method r.Path (routeChain r)) e =
        ⟨e.bindings ++ rs.map (fun r =>
          ⟨methodVerb r.Method, grp.basePath ++ normalizePath r.Path,
           grp.groupHandlers ++ routeChain r⟩)⟩ := by
  induction rs with
  | nil => intro e _; simp
  | cons r rs ih =>
    intro e h
    have hne : (routeChain r).isEmpty = false := h r (by simp)
    simp only [List.foldl_cons]
    rw [ih _ (fun rr hrr => h rr (by simp [hrr]))]
    simp [registerRouteToGroup, hne]

theorem bindGroup_eq {H : Type} (e : Engine H) (g : GroupRouter H)
    (h : ∀ r ∈ g.Routes, r.Validate = none) :
    bindGroup e g = ⟨e.bindings ++ g.Routes.map (bindingOfGroupRoute g)⟩ := by
  unfold bindGroup Engine.group
  rw [bindGroup_foldl _ _ _ (fun r hr => chain_isEmpty_false (h r hr))]
  rfl

theorem registerDirectGroups_append_valid {H : Type} (pre : List (GroupRouter H)) :
    ∀ (e : Engine H) (rest : List (GroupRouter H)),
      (∀ gp ∈ pre, groupValid gp = true) →
      registerDirectGroups e (pre ++ rest) =
        registerDirectGroups (pre.foldl bindGroup e) rest := by
  induction pre with
  | nil => intro e rest _; rfl
  | cons p pre ih =>
    intro e rest h
    have hp : firstInvalid p.Routes = none := (groupValid_iff p).mp (h p (by simp))
    simp only [List.cons_append, registerDirectGroups, hp, List.foldl_cons]
    exact ih _ rest (fun gp hgp => h gp (by simp [hgp]))

/-- C1: `Route.Validate` fails with the message "Route path cannot be empty"
when the path is empty, fails with "Route must have at least one handler"
when the path is non-empty and the handler list is empty, and succeeds
otherwise. -/
theorem c1_validate_spec {H : Type} (r : Route H) :
    (r.Path = "" → r.Validate = some ⟨"Route path cannot be empty"⟩) ∧
    (r.Path ≠ "" → r.Handlers = [] →
      r.Validate = some ⟨"Route must have at least one handler"⟩) ∧
    (r.Path ≠ "" → r.Handlers ≠ [] → r.Validate = none) := by
  refine ⟨fun h1 => ?_, fun h1 h2 => ?_, fun h1 h2 => ?_⟩
  · simp [Route.Validate, h1]
  · simp [Route.Validate, h1, h2]
  · simp [Route.Validate, h1, isEmpty_false_of_ne_nil h2]

theorem c1_validate_spec_witness :
    (Route.mk "" GET [0] [] "" : Route Nat).Validate =
      some ⟨"Route path cannot be empty"⟩ ∧
    (Route.mk "p" GET [] [] "" : Route Nat).Validate =
      some ⟨"Route must have at least one handler"⟩ ∧
    (Route.mk "p" GET [0] [] "" : Route Nat).Validate = none :=
  ⟨(c1_validate_spec _).1 rfl,
   (c1_validate_spec _).2.1 (by decide) rfl,
   (c1_validate_spec _).2.2 (by decide) (by decide)⟩

/-- C2: the claim says a method with extra parameters is skipped without
error, but `Register` only filters on the return shape
(`NumOut() != 1 || Out(0) != *Route`) and never checks the parameter count
before `Call(nil)`; on a method with a parameter that returns `*Route`,
registration panics instead of skipping it. -/
theorem c2_extra_param_method_panics :
    Register (⟨[]⟩ : Engine Nat) ⟨none, none, [extraParamMethod]⟩ =
      (⟨[]⟩, RegStatus.panicked "reflect: Call with too few input arguments") := by
  rfl

/-- C3: when the handler object implements the `Router` capability
interface, `Register` registers exactly the routes that `Routes()` returns
and ignores the object's method set entirely — the result is the same for
every method list, so no `*Route`-returning method is ever invoked or
registered. -/
theorem c3_direct_routes_precedence {H : Type} (e : Engine H) (rs : List (Route H))
    (dg : Option (List (GroupRouter H))) (ms : List (RMethod H)) :
    Register e ⟨some rs, dg, ms⟩ = registerDirectRoutes e rs ∧
    ((∀ r ∈ rs, r.Validate = none) →
      Register e ⟨some rs, dg, ms⟩ =
        (⟨e.bindings ++ rs.map bindingOfRoute⟩, RegStatus.ok)) := by
  exact ⟨rfl, fun h => registerDirectRoutes_allValid rs e h⟩

theorem c3_witness :
    Register (⟨[]⟩ : Engine Nat) ⟨some [Route.mk "/a" GET [1] [] ""], none, [spuriousMethod]⟩ =
      (⟨[⟨"GET", "/a", [1]⟩]⟩, RegStatus.ok) :=
  ((c3_direct_routes_precedence (⟨[]⟩ : Engine Nat) [Route.mk "/a" GET [1] [] ""] none
    [spuriousMethod]).2 (by decide)).trans (by decide)

/-- C8 counterexample: `WithDescription` assigns the description field, so a
second call replaces the first description instead of appending to it. -/
theorem c8_withDescription_replaces :
    (((NewRoute Nat "p" GET).WithDescription "a").WithDescription "b").Description = "b" ∧
    (((NewRoute Nat "p" GET).WithDescription "a").WithDescription "b").Description ≠
      "a" ++ "b" := by
  exact ⟨rfl, by decide⟩

/-- C8 (amended): each builder operation returns the updated descriptor;
`Handle`, `Use`, `GroupRouter.Use` and `AddRoute` append to the existing
field content, while `WithDescription` replaces the description field. -/
theorem c8_builder_ops {H : Type} (r : Route H) (g : GroupRouter H)
    (hs ms gm : List H) (d : String) (rt : Route H) :
    r.Handle hs = { r with Handlers := r.Handlers ++ hs } ∧
    r.Use ms = { r with Middlewares := r.Middlewares ++ ms } ∧
    r.WithDescription d = { r with Description := d } ∧
    g.Use gm = { g with Middlewares := g.Middlewares ++ gm } ∧
    g.AddRoute rt = { g with Routes := g.Routes ++ [rt] } :=
  ⟨rfl, rfl, rfl, rfl, rfl⟩

/-- C10: a discovered method of the matching shape whose returned descriptor
pointer is nil is skipped — no error, no validation, no binding — and the
scan continues with the remaining methods, on both the route and the group
discovery loops. -/
theorem c10_nil_result_skipped {H : Type} (e : Engine H) (m : RMethod H)
    (ms : List (RMethod H)) :
    (m.outs = [RetTy.routePtr] → m.numIn = 0 → m.routeResult = none →
      registerMethodRoutes e (m :: ms) = registerMethodRoutes e ms) ∧
    (m.outs = [RetTy.groupPtr] → m.numIn = 0 → m.groupResult = none →
      registerMethodGroups e (m :: ms) = registerMethodGroups e ms) := by
  constructor
  · intro h1 h2 h3
    simp [registerMethodRoutes, h1, h2, h3]
  · intro h1 h2 h3
    simp [registerMethodGroups, h1, h2, h3]

theorem c10_witness :
    registerMethodRoutes (⟨[]⟩ : Engine Nat) [nilRouteMethod] = (⟨[]⟩, RegStatus.ok) ∧
    registerMethodGroups (⟨[]⟩ : Engine Nat) [nilGroupMethod] = (⟨[]⟩, RegStatus.ok) :=
  ⟨(c10_nil_result_skipped _ nilRouteMethod []).1 rfl rfl rfl,
   (c10_nil_result_skipped _ nilGroupMethod []).2 rfl rfl rfl⟩

/-- C4: a group containing an invalid route has all its routes validated
before any is bound: on the direct path, after any prefix of fully valid
groups, the failing group yields an error with the engine exactly as the
valid prefix left it — zero routes of the failing group bound; on the
convention path, a method returning such a group yields an error with the
engine untouched. -/
theorem c4_group_atomicity {H : Type} (e : Engine H) (pre gs : List (GroupRouter H))
    (g : GroupRouter H) (m : RMethod H) (ms : List (RMethod H))
    (hbad : ∃ r ∈ g.Routes, (r.Validate).isSome) :
    ((∀ gp ∈ pre, groupValid gp = true) →
      (registerDirectGroups e (pre ++ g :: gs)).1 = pre.foldl bindGroup e ∧
      ∃ msg, (registerDirectGroups e (pre ++ g :: gs)).2 = RegStatus.err msg) ∧
    (m.outs = [RetTy.groupPtr] → m.numIn = 0 → m.groupResult = some g →
      (registerMethodGroups e (m :: ms)).1 = e ∧
      ∃ msg, (registerMethodGroups e (m :: ms)).2 = RegStatus.err msg) := by
  have hfi : ∃ ve, firstInvalid g.Routes = some ve := by
    cases hcase : firstInvalid g.Routes with
    | some ve => exact ⟨ve, rfl⟩
    | none =>
      obtain ⟨r, hmem, hsome⟩ := hbad
      rw [(firstInvalid_eq_none g.Routes).mp hcase r hmem] at hsome
      simp at hsome
  obtain ⟨ve, hve⟩ := hfi
  constructor
  · intro hpre
    rw [registerDirectGroups_append_valid pre e (g :: gs) hpre]
    simp [registerDirectGroups, hve]
  · intro h1 h2 h3
    simp [registerMethodGroups, h1, h2, h3, hve]

theorem c4_witness :
    ((registerDirectGroups (⟨[]⟩ : Engine Nat) ([] ++ mixedGroup :: [])).1 = ⟨[]⟩ ∧
      ∃ msg, (registerDirectGroups (⟨[]⟩ : Engine Nat) ([] ++ mixedGroup :: [])).2 =
        RegStatus.err msg) ∧
    ((registerMethodGroups (⟨[]⟩ : Engine Nat) [mixedGroupMethod]).1 = ⟨[]⟩ ∧
      ∃ msg, (registerMethodGroups (⟨[]⟩ : Engine Nat) [mixedGroupMethod]).2 =
        RegStatus.err msg) :=
  ⟨(c4_group_atomicity (⟨[]⟩ : Engine Nat) [] [] mixedGroup mixedGroupMethod []
      (by decide)).1 (by decide),
   (c4_group_atomicity (⟨[]⟩ : Engine Nat) [] [] mixedGroup mixedGroupMethod []
      (by decide)).2 rfl rfl rfl⟩

/-- C5: a valid route binds the chain middlewares-then-handlers in
declaration order; a fully valid group binds each route, in order, at the
group's prefix with the chain group-middlewares, then route middlewares,
then route handlers. -/
theorem c5_chain_order {H : Type} (e : Engine H) (r : Route H) (g : GroupRouter H) :
    (r.Validate = none →
      registerDirectRoutes e [r] =
        (⟨e.bindings ++ [⟨methodVerb r.Method, normalizePath r.Path,
          r.Middlewares ++ r.Handlers⟩]⟩, RegStatus.ok)) ∧
    ((∀ rr ∈ g.Routes, rr.Validate = none) →
      registerDirectGroups e [g] =
        (⟨e.bindings ++ g.Routes.map (fun rr =>
          ⟨methodVerb rr.Method, g.Path ++ normalizePath rr.Path,
           g.Middlewares ++ (rr.Middlewares ++ rr.Handlers)⟩)⟩, RegStatus.ok)) := by
  constructor
  · intro h
    have := registerDirectRoutes_allValid [r] e (by simpa using h)
    simpa [bindingOfRoute, routeChain] using this
  · intro h
    have hfi : firstInvalid g.Routes = none := (firstInvalid_eq_none g.Routes).mpr h
    have hb := bindGroup_eq e g h
    simp [registerDirectGroups, hfi, hb, bindingOfGroupRoute, routeChain]

theorem c5_witness :
    registerDirectRoutes (⟨[]⟩ : Engine Nat) [chainRoute] =
      (⟨[⟨"GET", "/r", [1, 2, 3, 4]⟩]⟩, RegStatus.ok) ∧
    registerDirectGroups (⟨[]⟩ : Engine Nat) [userGroup] =
      (⟨[⟨"GET", "/api/user/login", [10, 20]⟩,
         ⟨"GET", "/api/user/info", [10, 11, 21]⟩]⟩, RegStatus.ok) :=
  ⟨((c5_chain_order (⟨[]⟩ : Engine Nat) chainRoute userGroup).1 (by decide)).trans (by decide),
   ((c5_chain_order (⟨[]⟩ : Engine Nat) chainRoute userGroup).2 (by decide)).trans (by decide)⟩

/-- C6: every bind call, on the engine or through a group's sub-router,
uses the declared path unchanged when it already starts with a slash, and
the declared path prefixed with a slash otherwise (for a grouped route the
engine prefixes the group's base path to that normalized path). -/
theorem c6_path_normalization {H : Type} (e : Engine H) (grp : RouterGroup H)
    (m : Method) (p : String) (hs : List H) (hne : hs ≠ []) :
    (registerRoute e m p hs).bindings =
      e.bindings ++ [⟨methodVerb m, if startsWithSlash p then p else "/" ++ p, hs⟩] ∧
    (registerRouteToGroup e grp m p hs).bindings =
      e.bindings ++ [⟨methodVerb m,
        grp.basePath ++ (if startsWithSlash p then p else "/" ++ p),
        grp.groupHandlers ++ hs⟩] := by
  have h : hs.isEmpty = false := isEmpty_false_of_ne_nil hne
  constructor
  · simp [registerRoute, h, normalizePath]
  · simp [registerRouteToGroup, h, normalizePath]

theorem c6_witness :
    (registerRoute (⟨[]⟩ : Engine Nat) GET "health" [1]).bindings =
      [⟨"GET", "/health", [1]⟩] ∧
    (registerRoute (⟨[]⟩ : Engine Nat) GET "/health" [1]).bindings =
      [⟨"GET", "/health", [1]⟩] :=
  ⟨((c6_path_normalization (⟨[]⟩ : Engine Nat) ⟨"", []⟩ GET "health" [1]
      (by decide)).1).trans (by decide),
   ((c6_path_normalization (⟨[]⟩ : Engine Nat) ⟨"", []⟩ GET "/health" [1]
      (by decide)).1).trans (by decide)⟩

/-- C7: a route whose method is none of the eight known constants is bound
under the GET verb by the default branch of the method switch, both on the
engine and through a sub-router, and no error arises. -/
theorem c7_unknown_method_binds_get {H : Type} (e : Engine H) (grp : RouterGroup H)
    (m : Method) (p : String) (hs : List H) (hne : hs ≠ []) (hm : m ∉ knownMethods) :
    (registerRoute e m p hs).bindings =
      e.bindings ++ [⟨"GET", normalizePath p, hs⟩] ∧
    (registerRouteToGroup e grp m p hs).bindings =
      e.bindings ++ [⟨"GET", grp.basePath ++ normalizePath p, grp.groupHandlers ++ hs⟩] := by
  have hv : methodVerb m = "GET" := by
    simp only [knownMethods, List.mem_cons, List.mem_singleton, not_or] at hm
    obtain ⟨h1, h2, h3, h4, h5, h6, h7, h8⟩ := hm
    simp [methodVerb, h1, h2, h3, h4, h5, h6, h7, h8]
  have h : hs.isEmpty = false := isEmpty_false_of_ne_nil hne
  constructor
  · simp [registerRoute, h, hv]
  · simp [registerRouteToGroup, h, hv]

theorem c7_witness :
    (registerRoute (⟨[]⟩ : Engine Nat) "TRACE" "/t" [1]).bindings =
      [⟨"GET", "/t", [1]⟩] ∧
    (registerRouteToGroup (⟨[]⟩ : Engine Nat) ⟨"/g", [7]⟩ "TRACE" "/t" [1]).bindings =
      [⟨"GET", "/g/t", [7, 1]⟩] :=
  ⟨((c7_unknown_method_binds_get (⟨[]⟩ : Engine Nat) ⟨"/g", [7]⟩ "TRACE" "/t" [1]
      (by decide) (by decide)).1).trans (by decide),
   ((c7_unknown_method_binds_get (⟨[]⟩ : Engine Nat) ⟨"/g", [7]⟩ "TRACE" "/t" [1]
      (by decide) (by decide)).2).trans (by decide)⟩

/-- C9 counterexample: on the direct-routes capability path, the error
returned for an invalid route is exactly the bare validation message — it
names no offending method or source. -/
theorem c9_direct_error_has_no_source :
    Register (⟨[]⟩ : Engine Nat) ⟨some [noHandlerRoute], none, []⟩ =
      (⟨[]⟩, RegStatus.err "Route must have at least one handler") := by
  rfl

/-- C9 (amended): on the convention-discovery path a validation failure
produces an error naming the offending method together with the validation
message; on the direct-routes path the validation error is returned as-is,
without source context. -/
theorem c9_error_context {H : Type} (e : Engine H) (m : RMethod H) (ms : List (RMethod H))
    (r : Route H) (ve : ValidationError) (rs : List (Route H)) :
    (m.outs = [RetTy.routePtr] → m.numIn = 0 → m.routeResult = some r →
      r.Validate = some ve →
      registerMethodRoutes e (m :: ms) =
        (e, RegStatus.err ("invalid route from " ++ m.name ++ ": " ++ ve.Message))) ∧
    (r.Validate = some ve →
      registerDirectRoutes e (r :: rs) = (e, RegStatus.err ve.Message)) := by
  constructor
  · intro h1 h2 h3 h4
    simp [registerMethodRoutes, h1, h2, h3, h4]
  · intro h4
    simp [registerDirectRoutes, h4]

theorem c9_witness :
    registerMethodRoutes (⟨[]⟩ : Engine Nat) [badRouteMethod] =
      (⟨[]⟩, RegStatus.err
        "invalid route from main.(*Handler).Bad: Route must have at least one handler") ∧
    registerDirectRoutes (⟨[]⟩ : Engine Nat) [noHandlerRoute] =
      (⟨[]⟩, RegStatus.err "Route must have at least one handler") :=
  ⟨((c9_error_context (⟨[]⟩ : Engine Nat) badRouteMethod [] noHandlerRoute
      ⟨"Route must have at least one handler"⟩ []).1 rfl rfl rfl rfl).trans (by decide),
   ((c9_error_context (⟨[]⟩ : Engine Nat) badRouteMethod [] noHandlerRoute
      ⟨"Route must have at least one handler"⟩ []).2 rfl).trans (by decide)⟩

end RouterSpec
